import Mathlib

set_option maxRecDepth 100000

/-
Verification of the credential / OTP / token core of the
NestJS-OTP-Auth-Email repository, shallowly embedded in Lean 4.

The embedding follows the TypeScript sources:
  - src/src/otp/otp.service.ts        (OtpService: TOTP generation and
    verification via the speakeasy library with step = 3600 s, 6 digits,
    window = 3; challenge lookup and OTP-proof token issuance)
  - src/src/auth/auth.service.ts      (AuthService: validateUser, login,
    register)
  - the UsersService / UsersController variants cited by the claims
    (jwt-based forgot/reset password flow)
  - entity declarations for User and Otp.

Time is modelled as seconds (Nat).  JavaScript objects returned to HTTP
callers are modelled as association lists of field names, so that the
presence or absence of a field (e.g. the password hash) is expressible.
External libraries whose behaviour the claims depend on are embedded
faithfully (speakeasy's HMAC-SHA1 HOTP/TOTP, below) or, where the spec is
the only description (jsonwebtoken, bcrypt), modelled from the spec with a
doc comment saying so.
-/

/-! ## SHA-1, HMAC-SHA1 and the speakeasy HOTP/TOTP engine

`OtpService.getOtp` / `OtpService.verifyOtp` delegate to the speakeasy
library with options `{ step: 3600, digits: 6 }` (and `window: 3` for
verification).  speakeasy computes standard RFC-4226 HOTP over
HMAC-SHA1, with the TOTP counter `floor(t / step)`; with the default
`encoding: 'ascii'` the secret string's ASCII bytes are the HMAC key.
The definitions below embed that algorithm exactly, operating on byte
lists (`List Nat`, each element < 256). -/

/-- Truncate to a 32-bit word. -/
def w32 (n : Nat) : Nat := n % 4294967296

/-- Rotate a 32-bit word left by `b` bits. -/
def rotl (b n : Nat) : Nat := w32 (Nat.lor (Nat.shiftLeft n b) (Nat.shiftRight n (32 - b)))

/-- Big-endian bytes of `v`, fixed width `k`. -/
def bytesBE : Nat → Nat → List Nat
  | 0, _ => []
  | k + 1, v => bytesBE k (v / 256) ++ [v % 256]

/-- Group bytes into big-endian 32-bit words (drops a trailing partial group;
inputs are always multiples of 4). -/
def wordsOfBytes : List Nat → List Nat
  | b0 :: b1 :: b2 :: b3 :: rest =>
      (((b0 * 256 + b1) * 256 + b2) * 256 + b3) :: wordsOfBytes rest
  | _ => []

/-- SHA-1 round function. -/
def sha1f (i b c d : Nat) : Nat :=
  if i < 20 then Nat.lor (Nat.land b c) (Nat.land (4294967295 - b) d)
  else if i < 40 then Nat.xor (Nat.xor b c) d
  else if i < 60 then Nat.lor (Nat.lor (Nat.land b c) (Nat.land b d)) (Nat.land c d)
  else Nat.xor (Nat.xor b c) d

/-- SHA-1 round constants. -/
def sha1k (i : Nat) : Nat :=
  if i < 20 then 1518500249
  else if i < 40 then 1859775393
  else if i < 60 then 2400959708
  else 3395469782

/-- Extend the 16 message words (given reversed, newest first, in `acc`)
by `n` further schedule words; returns the full schedule oldest first. -/
def sha1schedAux : Nat → List Nat → List Nat
  | 0, acc => acc.reverse
  | n + 1, acc =>
      sha1schedAux n
        (rotl 1 (Nat.xor (Nat.xor (acc.getD 2 0) (acc.getD 7 0))
          (Nat.xor (acc.getD 13 0) (acc.getD 15 0))) :: acc)

/-- The 80 rounds of a SHA-1 compression, consuming the word schedule. -/
def sha1roundsAux : Nat → List Nat → Nat × Nat × Nat × Nat × Nat → Nat × Nat × Nat × Nat × Nat
  | _, [], st => st
  | i, w :: ws, (a, b, c, d, e) =>
      sha1roundsAux (i + 1) ws
        (w32 (rotl 5 a + sha1f i b c d + e + sha1k i + w), a, rotl 30 b, c, d)

/-- One SHA-1 compression step over a 64-byte block given as 16 words. -/
def sha1compress (h : Nat × Nat × Nat × Nat × Nat) (w16 : List Nat) :
    Nat × Nat × Nat × Nat × Nat :=
  let (h0, h1, h2, h3, h4) := h
  let (a, b, c, d, e) := sha1roundsAux 0 (sha1schedAux 64 w16.reverse) (h0, h1, h2, h3, h4)
  (w32 (h0 + a), w32 (h1 + b), w32 (h2 + c), w32 (h3 + d), w32 (h4 + e))

/-- SHA-1 padding: append 0x80, zero bytes to 56 mod 64, then the 8-byte
big-endian bit length. -/
def sha1pad (msg : List Nat) : List Nat :=
  msg ++ 128 :: (List.replicate ((119 - msg.length % 64) % 64) 0 ++ bytesBE 8 (8 * msg.length))

/-- Split a word list into blocks of 16 words. -/
def blocks16 : Nat → List Nat → List (List Nat)
  | 0, _ => []
  | n + 1, ws => ws.take 16 :: blocks16 n (ws.drop 16)

/-- SHA-1 digest (20 bytes) of a byte list. -/
def sha1 (msg : List Nat) : List Nat :=
  let padded := sha1pad msg
  let n := padded.length / 64
  let final := (blocks16 n (wordsOfBytes padded)).foldl sha1compress
    (1732584193, 4023233417, 2562383102, 271733878, 3285377520)
  let (h0, h1, h2, h3, h4) := final
  bytesBE 4 h0 ++ bytesBE 4 h1 ++ bytesBE 4 h2 ++ bytesBE 4 h3 ++ bytesBE 4 h4

/-- HMAC-SHA1 with the standard 64-byte block size. -/
def hmacSha1 (key msg : List Nat) : List Nat :=
  let k0 := if 64 < key.length then sha1 key else key
  let kp := k0 ++ List.replicate (64 - k0.length) 0
  sha1 ((kp.map fun b => Nat.xor b 92) ++ sha1 ((kp.map fun b => Nat.xor b 54) ++ msg))

example : sha1 [97, 98, 99] =
    [169, 153, 62, 54, 71, 6, 129, 106, 186, 62, 37, 113, 120, 80, 194, 108, 156, 208, 216, 157] := by
  decide

example : hmacSha1 [107, 101, 121] [97, 98, 99] =
    [79, 208, 178, 21, 39, 110, 241, 47, 43, 62, 76, 142, 202, 194, 129, 20, 152, 182, 86, 252] := by
  decide

/-! ### HOTP / TOTP as configured by `OtpService`

`OtpConfig` in `otp.service.ts` is `{ secret: null, step: 3600, digits: 6 }`;
`verifyOtp` adds `window: 3`.  speakeasy builds the 8-byte HOTP counter
buffer with 32-bit JavaScript bitwise operations (`tmp & 0xff`, `tmp >> 8`),
so the counter is first coerced through ToInt32 and then sign-extended to
64 bits; negative counters (which the ±window can produce at small times)
are therefore hashed as their 64-bit two's complement. -/

/-- RFC-4226 dynamic truncation of a 20-byte HMAC digest, reduced mod 10^6
(6 digits per `OtpConfig`). -/
def hotpTruncate (d : List Nat) : Nat :=
  let o := Nat.land (d.getD 19 0) 15
  Nat.lor (Nat.shiftLeft (Nat.land (d.getD o 0) 127) 24)
    (Nat.lor (Nat.shiftLeft (d.getD (o + 1) 0) 16)
      (Nat.lor (Nat.shiftLeft (d.getD (o + 2) 0) 8) (d.getD (o + 3) 0))) % 1000000

/-- Zero-pad a code to the fixed 6-digit width (speakeasy left-pads with
zeros and keeps the last 6 characters). -/
def zpad6 (n : Nat) : String :=
  let s := toString n
  String.mk (List.replicate (6 - s.length) '0') ++ s

/-- JavaScript ToInt32 of an integral value. -/
def toInt32 (i : Int) : Int := (i + 2147483648) % 4294967296 - 2147483648

/-- The 8-byte counter buffer speakeasy feeds to HMAC: ToInt32 of the
counter, sign-extended to 64 bits, big-endian. -/
def jsCounterBytes (c : Int) : List Nat :=
  bytesBE 8 ((toInt32 c % 18446744073709551616).toNat)

/-- speakeasy with the default `encoding: 'ascii'` uses the secret string's
ASCII bytes directly as the HMAC key (Node strips the high bit). -/
def otpKeyBytes (secret : String) : List Nat :=
  secret.toList.map fun ch => ch.toNat % 128

/-- The 6-digit HOTP code for a key at a (possibly negative) counter. -/
def hotpCodeAt (key : List Nat) (c : Int) : String :=
  zpad6 (hotpTruncate (hmacSha1 key (jsCounterBytes c)))

/-- `step: 3600` from `OtpConfig` (one-hour TOTP step). -/
def otpStep : Nat := 3600

/-- TOTP counter at time `t` (seconds): `floor(t / step)`. -/
def otpCounter (t : Nat) : Nat := t / otpStep

/-- `OtpService.getOtp`: the TOTP code of `secret` at time `t`. -/
def getOtp (secret : String) (t : Nat) : String :=
  hotpCodeAt (otpKeyBytes secret) (otpCounter t : Int)

/-- `window: 3` passed by `OtpService.verifyOtp`. -/
def otpWindow : Nat := 3

/-- `OtpService.verifyOtp`: speakeasy accepts the candidate code if it equals
the HOTP code at any counter offset in `[-window, window]` around the
current step. -/
def verifyOtp (secret token : String) (t : Nat) : Bool :=
  (List.range (2 * otpWindow + 1)).any fun j =>
    hotpCodeAt (otpKeyBytes secret)
      ((otpCounter t : Int) - (otpWindow : Int) + (j : Int)) == token

example : getOtp "AB" 18000 = "688522" := by decide

/-! ## Token Issuer

The repository signs and verifies tokens through `@nestjs/jwt`
(`JwtService.sign` / `JwtService.verify`); the library itself is not part
of the repository's sources.  The issuer is therefore modelled from the
spec (§4.3): a token is a claims map plus `issuedAt` and
`expiresAt = issuedAt + ttl`, authenticated by a signature over the
payload computed with a process-wide secret key; verification recomputes
the signature (`InvalidSignature` on mismatch) and then checks
`now ≤ expiresAt` (`Expired` otherwise), returning the claims only if
both checks pass.  `AuthModule`, `OtpModule` and `UsersModule` all
register `JwtModule` with the same `process.env.JWT_SECRET`, so a single
process-wide key is used everywhere. -/

/-- The claims maps actually signed by this code base:
`{ username, sub }` (session tokens from login/register),
`{ email }` (OTP-proof tokens), `{ email, sub }` (reset tokens). -/
structure Claims where
  username : Option String := none
  sub : Option String := none
  email : Option String := none
deriving DecidableEq

/-- Injective numeric encoding of a string (code points shifted by 1,
base max-code-point). -/
def encodeString (s : String) : Nat :=
  s.toList.foldl (fun a c => a * 1114112 + (c.toNat + 1)) 1

/-- Numeric encoding of an optional string. -/
def encodeOptStr : Option String → Nat
  | none => 0
  | some s => encodeString s + 1

/-- Numeric encoding of a claims map. -/
def encodeClaims (c : Claims) : Nat :=
  Nat.pair (encodeOptStr c.username) (Nat.pair (encodeOptStr c.sub) (encodeOptStr c.email))

/-- Modelled from the spec: the signature over the token payload, keyed by
the process-wide secret (stands in for the HMAC of the jsonwebtoken
library, which is not under src/). -/
def tokenSig (key : Nat) (c : Claims) (iat exp : Nat) : Nat :=
  Nat.pair key (Nat.pair (encodeClaims c) (Nat.pair iat exp))

/-- A signed token: claims, validity interval and signature.  Structural
equality models string equality of the compact serialized form. -/
structure SignedToken where
  claims : Claims
  issuedAt : Nat
  expiresAt : Nat
  sig : Nat
deriving DecidableEq

/-- Token verification failure kinds (spec §4.3). -/
inductive TokenError
  | invalidSignature
  | expired
deriving DecidableEq

/-- Modelled from the spec: Token Issuer `issue(claims, ttl)` — serializes
the claims plus `issuedAt` and `expiresAt = issuedAt + ttl`, signed with
the process-wide key (jsonwebtoken `sign`, not under src/). -/
def issueToken (key : Nat) (c : Claims) (ttl : Nat) (now : Nat) : SignedToken :=
  { claims := c, issuedAt := now, expiresAt := now + ttl,
    sig := tokenSig key c now (now + ttl) }

/-- Modelled from the spec: Token Issuer `verify(token)` — validates the
signature, then checks `now ≤ expiresAt`, and returns the claims only if
both checks pass (jsonwebtoken `verify`, not under src/). -/
def verifyToken (key : Nat) (tok : SignedToken) (now : Nat) : Except TokenError Claims :=
  if tok.sig ≠ tokenSig key tok.claims tok.issuedAt tok.expiresAt then
    .error .invalidSignature
  else if tok.expiresAt < now then .error .expired
  else .ok tok.claims

/-- The process-wide signing key (`process.env.JWT_SECRET`, loaded once by
each module's `JwtModule.register`; its concrete value is immaterial). -/
def jwtSecret : Nat := 246

/-- Session token TTL: `signOptions: { expiresIn: '60m' }` in `AuthModule`. -/
def sessionTtl : Nat := 3600

/-- OTP-proof token TTL: `{ expiresIn: '1h' }` in `verifyOtpForEmail`. -/
def otpProofTtl : Nat := 3600

/-- Reset token TTL: `{ expiresIn: '1h' }` in `UsersController.forgotPassword`. -/
def resetTtl : Nat := 3600

/-! ## Password hasher

`bcrypt.hash` / `bcrypt.compare` come from the bcrypt library, not from
the repository's sources. -/

/-- A bcrypt digest.  Modelled from the spec: the Password Hasher is a
salted one-way function whose only contract used by this code base is
`verify(p, hash(p)) = true` and `verify(p1, hash(p2)) = false` for
`p1 ≠ p2`; the per-call random salt is passed explicitly.  (Secrecy of
the preimage is not modelled; no claim depends on it.) -/
structure Digest where
  salt : Nat
  plain : String
deriving DecidableEq

/-- Modelled from the spec: `bcrypt.hash(plaintext, cost)` with the random
salt made an explicit parameter. -/
def bcryptHash (salt : Nat) (plain : String) : Digest :=
  { salt := salt, plain := plain }

/-- Modelled from the spec: `bcrypt.compare(plaintext, digest)` — true iff
the digest is the hash of the plaintext under the digest's own salt. -/
def bcryptVerify (plain : String) (digest : Digest) : Bool :=
  digest == bcryptHash digest.salt plain

/-! ## Data model

`User` (src/users entity) and `Otp` (src/otp entity), as declared with
TypeORM columns.  Stores are lists; `findOne` is first match; `save`
updates by primary key or inserts. -/

/-- The `User` entity: `id` (uuid), `email`, `password` (bcrypt hash),
`isVerified` (column default `false`), nullable `resetPasswordToken` and
`resetPasswordExpires`. -/
structure User where
  id : Nat
  email : String
  password : Digest
  isVerified : Bool := false
  resetPasswordToken : Option SignedToken := none
  resetPasswordExpires : Option Nat := none
deriving DecidableEq

/-- The `Otp` entity: `id`, `email`, `token` (the code computed at
issuance), `secret`, `expires`. -/
structure Otp where
  id : Nat
  email : String
  token : String
  secret : String
  expires : Nat
deriving DecidableEq

/-- `usersRepository.findOne({ where: { email } })`: first user with the
given email. -/
def findOneByEmail (users : List User) (email : String) : Option User :=
  users.find? fun u => u.email == email

/-- `usersRepository.save`: update by primary key, or insert. -/
def saveUser (users : List User) (u : User) : List User :=
  if users.any (fun v => v.id == u.id) then
    users.map fun v => if v.id == u.id then u else v
  else users ++ [u]

/-- `otpRepository.findOne({ where: { email } })`. -/
def findOtpByEmail (otps : List Otp) (email : String) : Option Otp :=
  otps.find? fun o => o.email == email

/-- `otpRepository.save`: update by primary key, or insert. -/
def saveOtp (otps : List Otp) (o : Otp) : List Otp :=
  if otps.any (fun p => p.id == o.id) then
    otps.map fun p => if p.id == o.id then o else p
  else otps ++ [o]

/-- `UsersService.create`: `usersRepository.create(partial)` +  `save`.
The partial carries only `email` and `password`; the generated id is
modelled as fresh, and `isVerified` takes its column default `false`. -/
def createUser (users : List User) (email : String) (password : Digest) : User × List User :=
  let u : User := { id := users.length, email := email, password := password }
  (u, saveUser users u)

/-! ## HTTP-visible values

JavaScript response objects are modelled as association lists from field
names to values, so that field presence is expressible: `login` returns
the user after `const { password, ...result } = user` (no `password`
key), while `register` returns the freshly saved entity with all its
fields. -/

/-- A JSON-ish field value. -/
inductive FieldVal
  | s (v : String)
  | n (v : Nat)
  | b (v : Bool)
  | d (v : Digest)
  | tok (v : SignedToken)
  | null
deriving DecidableEq

/-- All fields of a `User` entity, as serialized in a response. -/
def userFields (u : User) : List (String × FieldVal) :=
  [("id", .n u.id), ("email", .s u.email), ("password", .d u.password),
   ("isVerified", .b u.isVerified),
   ("resetPasswordToken", match u.resetPasswordToken with
     | none => .null
     | some t => .tok t),
   ("resetPasswordExpires", match u.resetPasswordExpires with
     | none => .null
     | some e => .n e)]

/-- The user object after `const { password, ...result } = user`: every
field except `password`. -/
def strippedUserFields (u : User) : List (String × FieldVal) :=
  (userFields u).filter fun kv => kv.1 ≠ "password"

/-- Error kinds thrown by the services (NestJS exception classes). -/
inductive AuthError
  | notFound (msg : String)
  | badRequest (msg : String)
  | conflict (msg : String)
  | forbidden (msg : String)
deriving DecidableEq

/-- The `{ user, access_token }` shape returned by login and register. -/
structure AuthResult where
  user : List (String × FieldVal)
  access_token : SignedToken
deriving DecidableEq

/-! ## OtpService (src/src/otp/otp.service.ts) -/

/-- `OtpService.findOtpInfoByEmail`: load the challenge for an email, or
throw `NotFoundException('OTP not found')`. -/
def findOtpInfoByEmail (otps : List Otp) (email : String) : Except AuthError Otp :=
  match findOtpByEmail otps email with
  | none => .error (.notFound "OTP not found")
  | some o => .ok o

/-- `OtpService.createOtp`: generate a secret (passed explicitly here, as
`getSecret` is random), compute the code, set expiry one hour out, and
save — overwriting the existing row for the email if one exists. -/
def createOtp (otps : List Otp) (email secret : String) (now : Nat) : List Otp :=
  let otp := getOtp secret now
  let expires := now + 3600
  match findOtpByEmail otps email with
  | some o => saveOtp otps { o with token := otp, secret := secret, expires := expires }
  | none =>
      saveOtp otps
        { id := otps.length, email := email, token := otp, secret := secret, expires := expires }

/-- `OtpService.verifyOtpForEmail`: load the challenge (`NotFound` if
absent), fail `'OTP has expired'` if `now > expires`, fail
`'Invalid OTP'` if the engine rejects the code, else sign an OTP-proof
token `{ email }` with `expiresIn: '1h'`.  The OTP store is threaded
through unchanged: the method performs no repository write. -/
def verifyOtpForEmail (otps : List Otp) (email otp : String) (now : Nat) :
    Except AuthError (SignedToken × List Otp) :=
  match findOtpInfoByEmail otps email with
  | .error e => .error e
  | .ok info =>
      if info.expires < now then .error (.badRequest "OTP has expired")
      else if verifyOtp info.secret otp now = false then .error (.badRequest "Invalid OTP")
      else .ok (issueToken jwtSecret { email := some email } otpProofTtl now, otps)

/-! ## AuthService (src/src/auth/auth.service.ts) -/

/-- `AuthService.validateUser`: find by email (`NotFoundException
'Email not found'`), compare the password (`BadRequestException
'Incorrect password'`), return the user minus its `password` field. -/
def validateUser (users : List User) (email pass : String) :
    Except AuthError (List (String × FieldVal) × User) :=
  match findOneByEmail users email with
  | none => .error (.notFound "Email not found")
  | some user =>
      if bcryptVerify pass user.password = false then
        .error (.badRequest "Incorrect password")
      else .ok (strippedUserFields user, user)

/-- `AuthService.login`: validate, then return the stripped user and a
session token `{ username, sub }`. -/
def login (users : List User) (email password : String) (now : Nat) :
    Except AuthError AuthResult :=
  match validateUser users email password with
  | .error e => .error e
  | .ok (fields, user) =>
      .ok { user := fields,
            access_token :=
              issueToken jwtSecret
                { username := some user.email, sub := some (toString user.id) }
                sessionTtl now }

/-- `AuthService.register`: check the email is not already registered
(`ConflictException 'Email already exists'`), then verify the proof token
(`BadRequestException 'Invalid or expired OTP token'` on any verification
failure), hash the password, create the user and sign a session token.
The source performs the duplicate-email lookup before the token check,
and returns the freshly created user with all of its fields. -/
def register (users : List User) (email password : String) (otpToken : SignedToken)
    (salt : Nat) (now : Nat) : Except AuthError (AuthResult × List User) :=
  match findOneByEmail users email with
  | some _ => .error (.conflict "Email already exists")
  | none =>
      match verifyToken jwtSecret otpToken now with
      | .error _ => .error (.badRequest "Invalid or expired OTP token")
      | .ok _ =>
          let hashedPassword := bcryptHash salt password
          let (newUser, users2) := createUser users email hashedPassword
          .ok ({ user := userFields newUser,
                 access_token :=
                   issueToken jwtSecret
                     { username := some newUser.email, sub := some (toString newUser.id) }
                     sessionTtl now },
               users2)

/-! ## UsersService and UsersController (jwt reset flow) -/

/-- `UsersService.setResetPasswordToken`: store the reset token and its
expiry on the user, if the email is registered. -/
def setResetPasswordToken (users : List User) (email : String) (tok : SignedToken)
    (expires : Nat) : Option User × List User :=
  match findOneByEmail users email with
  | some user =>
      let u2 := { user with resetPasswordToken := some tok, resetPasswordExpires := some expires }
      (some u2, saveUser users u2)
  | none => (none, users)

/-- `UsersService.resetPassword`: inside one `try`, verify the jwt, load
the user by the token's `email` claim, require the stored
`resetPasswordToken` to equal the submitted token and the stored expiry
not to have passed, then hash and save the new password.  Every failure
is caught and becomes `null`.  The stored `resetPasswordToken` /
`resetPasswordExpires` are NOT cleared on success.  (Reset tokens issued
by this code base always carry an `email` claim; a token without one
finds no user and falls into the `null` path.) -/
def resetPassword (users : List User) (tok : SignedToken) (newPassword : String)
    (salt : Nat) (now : Nat) : Option User × List User :=
  match verifyToken jwtSecret tok now with
  | .error _ => (none, users)
  | .ok decoded =>
      match decoded.email with
      | none => (none, users)
      | some em =>
          match findOneByEmail users em with
          | none => (none, users)
          | some user =>
              if user.resetPasswordToken ≠ some tok then (none, users)
              else if user.resetPasswordExpires.getD 0 < now then (none, users)
              else
                let u2 := { user with password := bcryptHash salt newPassword }
                (some u2, saveUser users u2)

/-- The response of `UsersController.forgotPassword`: either
`{ reset_token }` (email registered) or the generic
`{ message: 'If email exists, reset token has been sent' }`. -/
inductive ForgotResponse
  | resetTokenResp (t : SignedToken)
  | genericMessage (m : String)
deriving DecidableEq

/-- `UsersController.forgotPassword`: if the email is registered, sign a
reset token `{ email, sub }` with `expiresIn: '1h'`, persist it with a
one-hour expiry, and return it in the response; otherwise return the
generic message. -/
def forgotPassword (users : List User) (email : String) (now : Nat) :
    ForgotResponse × List User :=
  match findOneByEmail users email with
  | some user =>
      let tok :=
        issueToken jwtSecret { email := some user.email, sub := some (toString user.id) }
          resetTtl now
      let (_, users2) := setResetPasswordToken users email tok (now + 3600)
      (.resetTokenResp tok, users2)
  | none => (.genericMessage "If email exists, reset token has been sent", users)

/-- `UsersController.resetPassword`: delegate to the service; a `null`
result becomes `BadRequestException('Invalid or expired token')`, success
returns the confirmation message. -/
def resetPasswordEndpoint (users : List User) (tok : SignedToken) (newPassword : String)
    (salt : Nat) (now : Nat) : Except AuthError (String × List User) :=
  match resetPassword users tok newPassword salt now with
  | (some _, users2) => .ok ("Password successfully reset", users2)
  | (none, _) => .error (.badRequest "Invalid or expired token")

/-- Whether an `Except` result is a success. -/
def exOk {ε α : Type} : Except ε α → Bool
  | .ok _ => true
  | .error _ => false

/-! ## Reachable states

The whole mutable state of the core: the user store and the OTP store.
`Reachable` closes the empty initial state under every state-changing
operation of the system (login and OTP verification mutate nothing). -/

/-- The persistent state: user rows and OTP rows. -/
structure AppState where
  users : List User
  otps : List Otp
deriving DecidableEq

/-- State transition of a (possibly failing) `register` call. -/
def registerStep (s : AppState) (email password : String) (otpToken : SignedToken)
    (salt now : Nat) : AppState :=
  match register s.users email password otpToken salt now with
  | .ok (_, users2) => { s with users := users2 }
  | .error _ => s

/-- State transition of a `forgotPassword` call. -/
def forgotStep (s : AppState) (email : String) (now : Nat) : AppState :=
  { s with users := (forgotPassword s.users email now).2 }

/-- State transition of a `resetPassword` call. -/
def resetStep (s : AppState) (tok : SignedToken) (newPassword : String)
    (salt now : Nat) : AppState :=
  { s with users := (resetPassword s.users tok newPassword salt now).2 }

/-- State transition of a `createOtp` call. -/
def createOtpStep (s : AppState) (email secret : String) (now : Nat) : AppState :=
  { s with otps := createOtp s.otps email secret now }

/-- States reachable from the empty store by the operations of the core
(login and `verifyOtpForEmail` do not write and are omitted). -/
inductive Reachable : AppState → Prop
  | init : Reachable { users := [], otps := [] }
  | register (s : AppState) (email password : String) (otpToken : SignedToken)
      (salt now : Nat) : Reachable s → Reachable (registerStep s email password otpToken salt now)
  | forgot (s : AppState) (email : String) (now : Nat) :
      Reachable s → Reachable (forgotStep s email now)
  | reset (s : AppState) (tok : SignedToken) (newPassword : String) (salt now : Nat) :
      Reachable s → Reachable (resetStep s tok newPassword salt now)
  | createOtp (s : AppState) (email secret : String) (now : Nat) :
      Reachable s → Reachable (createOtpStep s email secret now)

/-! ## Claims -/

/-- Replacing, by id, the user found by email with a user of the same id
and email leaves it the one found by email. -/
theorem find?_map_replace {em : String} {l : List User} {user u : User}
    (h : l.find? (fun w => w.email == em) = some user) (hid : u.id = user.id)
    (hem : u.email = user.email) :
    (l.map fun v => if v.id == u.id then u else v).find? (fun w => w.email == em) = some u := by
  induction l with
  | nil => simp at h
  | cons v vs ih =>
      simp only [List.find?_cons] at h
      simp only [List.map_cons, List.find?_cons]
      by_cases hv : (v.email == em) = true
      · simp only [hv] at h
        have hveq : v = user := by simpa using h
        subst hveq
        have hid2 : (v.id == u.id) = true := beq_iff_eq.mpr hid.symm
        have hue : (u.email == em) = true := by
          rw [hem]
          exact hv
        simp only [if_pos hid2, hue]
      · have hvb : (v.email == em) = false := by
          cases hb : v.email == em with
          | true => exact absurd hb hv
          | false => rfl
        simp only [hvb] at h
        by_cases hvid : (v.id == u.id) = true
        · have hue : (u.email == em) = true := by
            rw [hem]
            simpa using List.find?_some h
          simp only [if_pos hvid, hue]
        · simp only [if_neg hvid, hvb]
          exact ih h

/-- Saving a user that keeps the id and email of the one currently found
by email makes it the one found by email. -/
theorem findOneByEmail_saveUser {users : List User} {user u : User} {em : String}
    (h : findOneByEmail users em = some user) (hid : u.id = user.id)
    (hem : u.email = user.email) :
    findOneByEmail (saveUser users u) em = some u := by
  have hmem : user ∈ users := List.mem_of_find?_eq_some h
  have hany : (users.any fun v => v.id == u.id) = true :=
    List.any_eq_true.mpr ⟨user, hmem, beq_iff_eq.mpr hid.symm⟩
  unfold saveUser
  rw [if_pos hany]
  exact find?_map_replace h hid hem

/-- Every member of `saveUser users u` is `u` or was already present. -/
theorem mem_saveUser {users : List User} {u v : User} (h : v ∈ saveUser users u) :
    v = u ∨ v ∈ users := by
  unfold saveUser at h
  split at h
  · rcases List.mem_map.mp h with ⟨w, hw, hweq⟩
    by_cases hwid : (w.id == u.id) = true
    · left
      rw [← hweq, if_pos hwid]
    · right
      rw [← hweq, if_neg hwid]
      exact hw
  · rcases List.mem_append.mp h with h1 | h1
    · right
      exact h1
    · left
      simpa using h1

/-- C2 counterexample: a user holds a live reset token; the first
`resetPassword` succeeds, and submitting the SAME token a second time on
the resulting store ALSO succeeds — it is not rejected with
`InvalidOrExpiredToken` as claimed, because the stored token was never
cleared. -/
theorem C2_counterexample :
    exOk (resetPasswordEndpoint
        [{ id := 0, email := "a@x.com", password := bcryptHash 0 "oldpass",
           resetPasswordToken :=
             some (issueToken jwtSecret { email := some "a@x.com", sub := some "0" } 3600 3600),
           resetPasswordExpires := some 7200 }]
        (issueToken jwtSecret { email := some "a@x.com", sub := some "0" } 3600 3600)
        "newpass1" 1 3600) = true ∧
    exOk (resetPasswordEndpoint
        (resetPassword
          [{ id := 0, email := "a@x.com", password := bcryptHash 0 "oldpass",
             resetPasswordToken :=
               some (issueToken jwtSecret { email := some "a@x.com", sub := some "0" } 3600 3600),
             resetPasswordExpires := some 7200 }]
          (issueToken jwtSecret { email := some "a@x.com", sub := some "0" } 3600 3600)
          "newpass1" 1 3600).2
        (issueToken jwtSecret { email := some "a@x.com", sub := some "0" } 3600 3600)
        "newpass2" 2 3600) = true := by
  exact ⟨rfl, rfl⟩

/-- C2 (amended): after a successful `resetPassword`, the identity's
stored `resetPasswordToken` is NOT cleared (only the password changes),
so submitting the same reset-proof token a second time, while it is still
unexpired, succeeds again instead of failing with
`InvalidOrExpiredToken`. -/
theorem C2_reset_token_not_cleared (users : List User) (tok : SignedToken)
    (pw pw2 : String) (salt salt2 now : Nat) (u : User) (users2 : List User)
    (h : resetPassword users tok pw salt now = (some u, users2)) :
    u.resetPasswordToken = some tok ∧
    ((resetPassword users2 tok pw2 salt2 now).1.isSome = true) := by
  unfold resetPassword at h
  cases hvt : verifyToken jwtSecret tok now with
  | error e =>
      rw [hvt] at h
      simp at h
  | ok decoded =>
      rw [hvt] at h
      simp only [] at h
      cases hde : decoded.email with
      | none =>
          rw [hde] at h
          simp at h
      | some em =>
          rw [hde] at h
          simp only [] at h
          cases hf : findOneByEmail users em with
          | none =>
              rw [hf] at h
              simp at h
          | some user0 =>
              rw [hf] at h
              simp only [] at h
              by_cases htk : user0.resetPasswordToken ≠ some tok
              · rw [if_pos htk] at h
                simp at h
              · rw [if_neg htk] at h
                by_cases hex : user0.resetPasswordExpires.getD 0 < now
                · rw [if_pos hex] at h
                  simp at h
                · rw [if_neg hex] at h
                  simp only [Prod.mk.injEq, Option.some.injEq] at h
                  obtain ⟨hu, hus⟩ := h
                  have htk2 : user0.resetPasswordToken = some tok := not_not.mp htk
                  constructor
                  · rw [← hu]
                    exact htk2
                  · have hf2 : findOneByEmail users2 em = some u := by
                      rw [← hus, ← hu]
                      exact findOneByEmail_saveUser hf rfl rfl
                    unfold resetPassword
                    rw [hvt]
                    simp only []
                    rw [hde]
                    simp only []
                    rw [hf2]
                    simp only []
                    rw [if_neg (fun hc => hc (by rw [← hu]; exact htk2))]
                    rw [if_neg (by rw [← hu]; exact hex)]
                    rfl

/-- C2 witness: the amended theorem at a concrete successful reset. -/
theorem C2_reset_token_not_cleared_witness :
    ((resetPassword
        [{ id := 3, email := "w2@x.com", password := bcryptHash 0 "oldpass",
           resetPasswordToken :=
             some (issueToken jwtSecret { email := some "w2@x.com", sub := some "3" } 3600 50),
           resetPasswordExpires := some 3650 }]
        (issueToken jwtSecret { email := some "w2@x.com", sub := some "3" } 3600 50)
        "newpass1" 4 60).1.map fun v => v.resetPasswordToken) =
      some (some (issueToken jwtSecret { email := some "w2@x.com", sub := some "3" } 3600 50)) := by
  obtain ⟨u, users2, h⟩ :
      ∃ u users2,
        resetPassword
          [{ id := 3, email := "w2@x.com", password := bcryptHash 0 "oldpass",
             resetPasswordToken :=
               some (issueToken jwtSecret { email := some "w2@x.com", sub := some "3" } 3600 50),
             resetPasswordExpires := some 3650 }]
          (issueToken jwtSecret { email := some "w2@x.com", sub := some "3" } 3600 50)
          "newpass1" 4 60 = (some u, users2) := ⟨_, _, rfl⟩
  rw [h]
  show some u.resetPasswordToken =
    some (some (issueToken jwtSecret { email := some "w2@x.com", sub := some "3" } 3600 50))
  rw [(C2_reset_token_not_cleared _ _ "newpass1" "x" 4 0 60 u users2 h).1]

/-- C3 counterexample: a successful `verifyOtpForEmail` returns the OTP
store unchanged — the challenge for the email is still present (and the
very same call on that store succeeds again), refuting the claim that
the challenge is discarded on success. -/
theorem C3_counterexample :
    verifyOtpForEmail
        [{ id := 0, email := "a@x.com", token := getOtp "AB" 18000, secret := "AB",
           expires := 21600 }] "a@x.com" (getOtp "AB" 18000) 18000 =
      .ok (issueToken jwtSecret { email := some "a@x.com" } otpProofTtl 18000,
        [{ id := 0, email := "a@x.com", token := getOtp "AB" 18000, secret := "AB",
           expires := 21600 }]) ∧
    (findOtpByEmail
        [{ id := 0, email := "a@x.com", token := getOtp "AB" 18000, secret := "AB",
           expires := 21600 }] "a@x.com").isSome = true :=
  ⟨rfl, rfl⟩

/-- C3 (amended): when `verifyOtpForEmail` succeeds it issues an OTP-proof
token bound to the email, but it does NOT discard the stored challenge:
the store is returned unchanged, so the challenge is not single use — a
second verification attempt for the same email still finds the live
challenge and can succeed again. -/
theorem C3_challenge_not_discarded (otps : List Otp) (email otp : String) (now : Nat)
    (h : exOk (verifyOtpForEmail otps email otp now) = true) :
    verifyOtpForEmail otps email otp now =
      .ok (issueToken jwtSecret { email := some email } otpProofTtl now, otps) := by
  unfold verifyOtpForEmail at h ⊢
  cases hf : findOtpInfoByEmail otps email with
  | error e =>
      rw [hf] at h
      simp [exOk] at h
  | ok info =>
      rw [hf] at h
      simp only [] at h ⊢
      by_cases he : info.expires < now
      · rw [if_pos he] at h
        simp [exOk] at h
      · rw [if_neg he] at h ⊢
        by_cases hv : verifyOtp info.secret otp now = false
        · rw [if_pos hv] at h
          simp [exOk] at h
        · rw [if_neg hv]

/-- C3 witness: the amended theorem at a concrete successful
verification. -/
theorem C3_challenge_not_discarded_witness :
    verifyOtpForEmail
        [{ id := 1, email := "w3@x.com", token := getOtp "CD" 7200, secret := "CD",
           expires := 10800 }] "w3@x.com" (getOtp "CD" 7200) 7200 =
      .ok (issueToken jwtSecret { email := some "w3@x.com" } otpProofTtl 7200,
        [{ id := 1, email := "w3@x.com", token := getOtp "CD" 7200, secret := "CD",
           expires := 10800 }]) :=
  C3_challenge_not_discarded
    [{ id := 1, email := "w3@x.com", token := getOtp "CD" 7200, secret := "CD",
       expires := 10800 }] "w3@x.com" (getOtp "CD" 7200) 7200 (by decide)

/-- C6: `verifyOtpForEmail` checks its failure conditions in a fixed
order — `NotFound` when no challenge exists for the email; otherwise
`'OTP has expired'` whenever `now > expiresAt`, for EVERY submitted code
including the correct one; otherwise `'Invalid OTP'` when the engine
rejects the code; and it succeeds (issuing the OTP-proof token) exactly
when all three checks pass. -/
theorem C6_verify_failure_order (otps : List Otp) (email otp : String) (now : Nat) :
    (findOtpByEmail otps email = none →
      verifyOtpForEmail otps email otp now = .error (.notFound "OTP not found")) ∧
    (∀ info, findOtpByEmail otps email = some info → info.expires < now →
      verifyOtpForEmail otps email otp now = .error (.badRequest "OTP has expired")) ∧
    (∀ info, findOtpByEmail otps email = some info → ¬ info.expires < now →
      verifyOtp info.secret otp now = false →
      verifyOtpForEmail otps email otp now = .error (.badRequest "Invalid OTP")) ∧
    (∀ info, findOtpByEmail otps email = some info → ¬ info.expires < now →
      verifyOtp info.secret otp now = true →
      verifyOtpForEmail otps email otp now =
        .ok (issueToken jwtSecret { email := some email } otpProofTtl now, otps)) := by
  refine ⟨?_, ?_, ?_, ?_⟩
  · intro hf
    unfold verifyOtpForEmail findOtpInfoByEmail
    rw [hf]
  · intro info hf he
    unfold verifyOtpForEmail findOtpInfoByEmail
    rw [hf]
    simp only []
    rw [if_pos he]
  · intro info hf he hv
    unfold verifyOtpForEmail findOtpInfoByEmail
    rw [hf]
    simp only []
    rw [if_neg he, if_pos hv]
  · intro info hf he hv
    unfold verifyOtpForEmail findOtpInfoByEmail
    rw [hf]
    simp only []
    rw [if_neg he, if_neg (by simp [hv])]

/-- C6 witness: all four branches at concrete inputs — in particular the
expired branch rejects the genuinely correct code of the stored secret. -/
theorem C6_verify_failure_order_witness :
    verifyOtpForEmail [] "w6@x.com" "000000" 0 = .error (.notFound "OTP not found") ∧
    verifyOtpForEmail
        [{ id := 0, email := "w6@x.com", token := getOtp "EF" 100, secret := "EF",
           expires := 3700 }] "w6@x.com" (getOtp "EF" 100) 20000 =
      .error (.badRequest "OTP has expired") ∧
    verifyOtpForEmail
        [{ id := 0, email := "w6@x.com", token := getOtp "EF" 7200, secret := "EF",
           expires := 10800 }] "w6@x.com" "000000" 7200 =
      .error (.badRequest "Invalid OTP") ∧
    verifyOtpForEmail
        [{ id := 0, email := "w6@x.com", token := getOtp "EF" 7200, secret := "EF",
           expires := 10800 }] "w6@x.com" (getOtp "EF" 7200) 7200 =
      .ok (issueToken jwtSecret { email := some "w6@x.com" } otpProofTtl 7200,
        [{ id := 0, email := "w6@x.com", token := getOtp "EF" 7200, secret := "EF",
           expires := 10800 }]) :=
  ⟨(C6_verify_failure_order [] "w6@x.com" "000000" 0).1 rfl,
   (C6_verify_failure_order
        [{ id := 0, email := "w6@x.com", token := getOtp "EF" 100, secret := "EF",
           expires := 3700 }] "w6@x.com" (getOtp "EF" 100) 20000).2.1
      { id := 0, email := "w6@x.com", token := getOtp "EF" 100, secret := "EF",
        expires := 3700 } rfl (by decide),
   (C6_verify_failure_order
        [{ id := 0, email := "w6@x.com", token := getOtp "EF" 7200, secret := "EF",
           expires := 10800 }] "w6@x.com" "000000" 7200).2.2.1
      { id := 0, email := "w6@x.com", token := getOtp "EF" 7200, secret := "EF",
        expires := 10800 } rfl (by decide) (by decide),
   (C6_verify_failure_order
        [{ id := 0, email := "w6@x.com", token := getOtp "EF" 7200, secret := "EF",
           expires := 10800 }] "w6@x.com" (getOtp "EF" 7200) 7200).2.2.2
      { id := 0, email := "w6@x.com", token := getOtp "EF" 7200, secret := "EF",
        expires := 10800 } rfl (by decide) (by decide)⟩

/-- Verifying a token issued with the same key succeeds with its claims as
long as it is not expired. -/
theorem verifyToken_issue_ok (key : Nat) (c : Claims) (ttl iat now : Nat)
    (h : now ≤ iat + ttl) :
    verifyToken key (issueToken key c ttl iat) now = .ok c := by
  simp [verifyToken, issueToken, Nat.not_lt.mpr h]

/-- C9: `register` accepts as proof ANY unexpired token signed with the
single process-wide secret, regardless of its claims: the outcome of
registration is identical for any two such tokens (no purpose field or
email binding is inspected), and with a free email it succeeds — so a
session token from login, or an OTP-proof token issued for a different
email, passes the proof check. -/
theorem C9_proof_token_claims_ignored (users : List User) (email password : String)
    (c1 c2 : Claims) (ttl1 ttl2 iat1 iat2 salt now : Nat)
    (h1 : now ≤ iat1 + ttl1) (h2 : now ≤ iat2 + ttl2) :
    register users email password (issueToken jwtSecret c1 ttl1 iat1) salt now =
      register users email password (issueToken jwtSecret c2 ttl2 iat2) salt now ∧
    (findOneByEmail users email = none →
      exOk (register users email password (issueToken jwtSecret c1 ttl1 iat1) salt now) =
        true) := by
  constructor
  · unfold register
    cases hf : findOneByEmail users email with
    | some u => rfl
    | none =>
        rw [verifyToken_issue_ok jwtSecret c1 ttl1 iat1 now h1,
          verifyToken_issue_ok jwtSecret c2 ttl2 iat2 now h2]
  · intro hf
    unfold register
    rw [hf]
    simp only []
    rw [verifyToken_issue_ok jwtSecret c1 ttl1 iat1 now h1]
    rfl

/-- C9 witness: a session-style token (`{ username, sub }`) and an
OTP-proof token bound to a DIFFERENT email both let registration of
`w9@x.com` succeed. -/
theorem C9_proof_token_claims_ignored_witness :
    register [] "w9@x.com" "hunter2"
        (issueToken jwtSecret { username := some "other@y.com", sub := some "9" } 3600 10) 1 20 =
      register [] "w9@x.com" "hunter2"
        (issueToken jwtSecret { email := some "different@y.com" } 3600 15) 1 20 ∧
    exOk (register [] "w9@x.com" "hunter2"
        (issueToken jwtSecret { username := some "other@y.com", sub := some "9" } 3600 10) 1 20) =
      true :=
  ⟨(C9_proof_token_claims_ignored [] "w9@x.com" "hunter2"
      { username := some "other@y.com", sub := some "9" } { email := some "different@y.com" }
      3600 3600 10 15 1 20 (by decide) (by decide)).1,
   (C9_proof_token_claims_ignored [] "w9@x.com" "hunter2"
      { username := some "other@y.com", sub := some "9" } { email := some "different@y.com" }
      3600 3600 10 15 1 20 (by decide) (by decide)).2 rfl⟩

/-- C7 counterexample: for the secret `"I7MH"` at `t = 3600000` the
6-digit code of the current step recurs at step offset +5, which lies
inside the ±3-step acceptance window around `t + 4·step`; verification
at `t + 4·stepSeconds` therefore still SUCCEEDS, refuting the claimed
universal `verify(s, code(s,t), t + 4*stepSeconds) == false`. -/
theorem C7_counterexample :
    verifyOtp "I7MH" (getOtp "I7MH" 3600000) (3600000 + 4 * otpStep) = true := by
  decide

/-- C7 (amended): for every secret and time, the engine accepts the
current code at its own time and two steps later (inside the ±3-step
window); and it rejects the code four steps later PROVIDED the secret's
6-digit codes at the seven window steps do not collide with the original
one — the codes are only 6 digits, so collisions exist (see the
counterexample) and the rejection is not universal. -/
theorem C7_totp_window (s : String) (t : Nat) :
    verifyOtp s (getOtp s t) t = true ∧
    verifyOtp s (getOtp s t) (t + 2 * otpStep) = true ∧
    ((∀ k : Nat, k < 8 → 0 < k →
        hotpCodeAt (otpKeyBytes s) ((otpCounter t : Int) + (k : Int)) ≠
          hotpCodeAt (otpKeyBytes s) (otpCounter t : Int)) →
      verifyOtp s (getOtp s t) (t + 4 * otpStep) = false) := by
  have hc2 : otpCounter (t + 2 * otpStep) = otpCounter t + 2 := by
    unfold otpCounter otpStep
    omega
  have hc4 : otpCounter (t + 4 * otpStep) = otpCounter t + 4 := by
    unfold otpCounter otpStep
    omega
  refine ⟨?_, ?_, ?_⟩
  · unfold verifyOtp
    apply List.any_eq_true.mpr
    refine ⟨3, by decide, ?_⟩
    show (hotpCodeAt (otpKeyBytes s)
        ((otpCounter t : Int) - (otpWindow : Int) + ((3 : Nat) : Int)) == getOtp s t) = true
    have harg : (otpCounter t : Int) - (otpWindow : Int) + ((3 : Nat) : Int) =
        (otpCounter t : Int) := by
      unfold otpWindow
      omega
    rw [harg]
    show (getOtp s t == getOtp s t) = true
    exact beq_self_eq_true _
  · unfold verifyOtp
    apply List.any_eq_true.mpr
    refine ⟨1, by decide, ?_⟩
    show (hotpCodeAt (otpKeyBytes s)
        ((otpCounter (t + 2 * otpStep) : Int) - (otpWindow : Int) + ((1 : Nat) : Int)) ==
      getOtp s t) = true
    rw [hc2]
    have harg : ((otpCounter t + 2 : Nat) : Int) - (otpWindow : Int) + ((1 : Nat) : Int) =
        (otpCounter t : Int) := by
      unfold otpWindow
      omega
    rw [harg]
    show (getOtp s t == getOtp s t) = true
    exact beq_self_eq_true _
  · intro hinj
    unfold verifyOtp
    apply List.any_eq_false.mpr
    intro j hj
    have hj7 : j < 7 := by simpa [otpWindow] using hj
    show ¬ ((hotpCodeAt (otpKeyBytes s)
        ((otpCounter (t + 4 * otpStep) : Int) - (otpWindow : Int) + (j : Int)) ==
      getOtp s t) = true)
    rw [hc4]
    have harg : ((otpCounter t + 4 : Nat) : Int) - (otpWindow : Int) + (j : Int) =
        (otpCounter t : Int) + ((j + 1 : Nat) : Int) := by
      unfold otpWindow
      omega
    rw [harg]
    intro hbeq
    have heq : hotpCodeAt (otpKeyBytes s) ((otpCounter t : Int) + ((j + 1 : Nat) : Int)) =
        getOtp s t := eq_of_beq hbeq
    have hgo : getOtp s t = hotpCodeAt (otpKeyBytes s) (otpCounter t : Int) := rfl
    rw [hgo] at heq
    exact hinj (j + 1) (by omega) (by omega) heq

/-- C7 witness: the three window properties at the collision-free secret
`"AB"` and `t = 18000`. -/
theorem C7_totp_window_witness :
    verifyOtp "AB" (getOtp "AB" 18000) 18000 = true ∧
    verifyOtp "AB" (getOtp "AB" 18000) (18000 + 2 * otpStep) = true ∧
    verifyOtp "AB" (getOtp "AB" 18000) (18000 + 4 * otpStep) = false :=
  ⟨(C7_totp_window "AB" 18000).1, (C7_totp_window "AB" 18000).2.1,
   (C7_totp_window "AB" 18000).2.2 (by decide)⟩

/-- Users present after a successful `register` are the freshly created
one (which has `isVerified = false`) or were present before. -/
theorem register_users_invariant {users users2 : List User} {email password : String}
    {tok : SignedToken} {salt now : Nat} {r : AuthResult}
    (h : register users email password tok salt now = .ok (r, users2))
    (hv : ∀ u ∈ users, u.isVerified = false) :
    ∀ u ∈ users2, u.isVerified = false := by
  unfold register at h
  cases hf : findOneByEmail users email with
  | some u0 =>
      rw [hf] at h
      simp at h
  | none =>
      rw [hf] at h
      simp only [] at h
      cases hvt : verifyToken jwtSecret tok now with
      | error e =>
          rw [hvt] at h
          simp at h
      | ok c =>
          rw [hvt] at h
          simp only [createUser] at h
          simp only [Except.ok.injEq, Prod.mk.injEq] at h
          obtain ⟨_, hus⟩ := h
          intro u hu
          rw [← hus] at hu
          rcases mem_saveUser hu with hEq | hmem
          · rw [hEq]
          · exact hv u hmem

/-- `forgotPassword` only rewrites the reset fields of an existing user;
`isVerified` stays false everywhere. -/
theorem forgot_users_invariant {users : List User} {email : String} {now : Nat}
    (hv : ∀ u ∈ users, u.isVerified = false) :
    ∀ u ∈ (forgotPassword users email now).2, u.isVerified = false := by
  unfold forgotPassword
  cases hf : findOneByEmail users email with
  | none => simpa using hv
  | some user =>
      simp only []
      unfold setResetPasswordToken
      rw [hf]
      simp only []
      intro u hu
      rcases mem_saveUser hu with hEq | hmem
      · rw [hEq]
        exact hv user (List.mem_of_find?_eq_some hf)
      · exact hv u hmem

/-- `resetPassword` only rewrites the password of an existing user;
`isVerified` stays false everywhere. -/
theorem reset_users_invariant {users : List User} {tok : SignedToken} {newPassword : String}
    {salt now : Nat} (hv : ∀ u ∈ users, u.isVerified = false) :
    ∀ u ∈ (resetPassword users tok newPassword salt now).2, u.isVerified = false := by
  unfold resetPassword
  cases hvt : verifyToken jwtSecret tok now with
  | error e => simpa using hv
  | ok decoded =>
      simp only []
      cases hde : decoded.email with
      | none => simpa using hv
      | some em =>
          simp only []
          cases hf : findOneByEmail users em with
          | none => simpa using hv
          | some user =>
              simp only []
              by_cases htk : user.resetPasswordToken ≠ some tok
              · rw [if_pos htk]
                simpa using hv
              · rw [if_neg htk]
                by_cases hex : user.resetPasswordExpires.getD 0 < now
                · rw [if_pos hex]
                  simpa using hv
                · rw [if_neg hex]
                  simp only []
                  intro u hu
                  rcases mem_saveUser hu with hEq | hmem
                  · rw [hEq]
                    exact hv user (List.mem_of_find?_eq_some hf)
                  · exact hv u hmem

/-- C10: `isVerified = false` is an invariant of every reachable state —
the entity default is false and no core operation (registration, login,
OTP request/verification, forgot/reset password) ever sets it true, even
after OTP-gated registration completes. -/
theorem C10_isVerified_invariant (s : AppState) (h : Reachable s) :
    ∀ u ∈ s.users, u.isVerified = false := by
  induction h with
  | init =>
      intro u hu
      simp at hu
  | register s0 email password otpToken salt now hs ih =>
      unfold registerStep
      cases hr : register s0.users email password otpToken salt now with
      | error e => exact ih
      | ok p =>
          obtain ⟨r, users2⟩ := p
          exact register_users_invariant hr ih
  | forgot s0 email now hs ih => exact forgot_users_invariant ih
  | reset s0 tok newPassword salt now hs ih => exact reset_users_invariant ih
  | createOtp s0 email secret now hs ih => exact ih

/-- C10 witness: the invariant applied to the state reached by one
successful OTP-gated registration. -/
theorem C10_isVerified_invariant_witness :
    ({ id := 0, email := "w10@x.com", password := bcryptHash 2 "hunter2" } : User).isVerified =
      false :=
  C10_isVerified_invariant
    (registerStep { users := [], otps := [] } "w10@x.com" "hunter2"
      (issueToken jwtSecret { email := some "w10@x.com" } 3600 5) 2 5)
    (Reachable.register { users := [], otps := [] } "w10@x.com" "hunter2"
      (issueToken jwtSecret { email := some "w10@x.com" } 3600 5) 2 5 Reachable.init)
    { id := 0, email := "w10@x.com", password := bcryptHash 2 "hunter2" }
    (by decide)

/-- C8: token round-trip — for every key, claims map and ttl, verifying a
token at its issuance time succeeds and returns the same claims, and once
`now > issuedAt + ttl` verification fails with `Expired`.  (Token Issuer
modelled from the spec; the jsonwebtoken library is not under src/.) -/
theorem C8_token_roundtrip (key : Nat) (c : Claims) (ttl now later : Nat) :
    verifyToken key (issueToken key c ttl now) now = .ok c ∧
    (now + ttl < later → verifyToken key (issueToken key c ttl now) later = .error .expired) := by
  constructor
  · simp [verifyToken, issueToken]
  · intro h
    simp [verifyToken, issueToken, h]

/-- C8 witness: the round-trip and expiry at concrete inputs. -/
theorem C8_token_roundtrip_witness :
    verifyToken 5 (issueToken 5 { email := some "w@x.com" } 60 100) 100 =
      .ok { email := some "w@x.com" } ∧
    verifyToken 5 (issueToken 5 { email := some "w@x.com" } 60 100) 161 = .error .expired :=
  ⟨(C8_token_roundtrip 5 { email := some "w@x.com" } 60 100 161).1,
   (C8_token_roundtrip 5 { email := some "w@x.com" } 60 100 161).2 (by decide)⟩

/-- C4 counterexample: the forgot-password response for an unregistered
email (`{ message: ... }`) differs from the response for the same email
when registered (`{ reset_token: ... }`), so the two runs are
distinguishable and the claimed noninterference fails. -/
theorem C4_counterexample :
    (forgotPassword [] "a@x.com" 0).1 ≠
      (forgotPassword [{ id := 0, email := "a@x.com", password := bcryptHash 0 "pw" }]
        "a@x.com" 0).1 := by
  decide

/-- C4 (amended): for every unregistered email the controller returns the
fixed generic message and leaves the store unchanged; but for a
registered email it returns the reset token itself, so the response does
reveal whether the email is registered. -/
theorem C4_forgot_password_responses (users : List User) (email : String) (now : Nat) :
    (findOneByEmail users email = none →
      forgotPassword users email now =
        (.genericMessage "If email exists, reset token has been sent", users)) ∧
    (∀ u, findOneByEmail users email = some u →
      (forgotPassword users email now).1 =
        .resetTokenResp
          (issueToken jwtSecret { email := some u.email, sub := some (toString u.id) }
            resetTtl now)) := by
  constructor
  · intro h
    simp [forgotPassword, h]
  · intro u h
    simp [forgotPassword, h]

/-- C4 witness: both branches at concrete inputs. -/
theorem C4_forgot_password_responses_witness :
    forgotPassword [] "w@x.com" 3 =
      (.genericMessage "If email exists, reset token has been sent", []) ∧
    (forgotPassword [{ id := 4, email := "w@x.com", password := bcryptHash 1 "pw" }]
        "w@x.com" 3).1 =
      .resetTokenResp
        (issueToken jwtSecret { email := some "w@x.com", sub := some "4" } resetTtl 3) :=
  ⟨(C4_forgot_password_responses [] "w@x.com" 3).1 rfl,
   (C4_forgot_password_responses
        [{ id := 4, email := "w@x.com", password := bcryptHash 1 "pw" }] "w@x.com" 3).2
      { id := 4, email := "w@x.com", password := bcryptHash 1 "pw" } rfl⟩

/-- C5 counterexample: with `a@x.com` already registered and an expired
proof token, `register` fails with `Conflict`, not with the claimed
`InvalidOrExpiredProof` — the duplicate-email check runs first. -/
theorem C5_counterexample :
    register [{ id := 0, email := "a@x.com", password := bcryptHash 0 "pw" }] "a@x.com"
        "secret1" (issueToken jwtSecret { email := some "a@x.com" } 0 0) 1 100 =
      .error (.conflict "Email already exists") ∧
    verifyToken jwtSecret (issueToken jwtSecret { email := some "a@x.com" } 0 0) 100 =
      .error .expired :=
  ⟨rfl, rfl⟩

/-- C5 (amended): `register` checks the duplicate email BEFORE the proof
token: an already-registered email yields `Conflict` for every token,
valid or not, and `'Invalid or expired OTP token'` is reported only when
the email is not registered. -/
theorem C5_conflict_before_proof_check (users : List User) (email password : String)
    (tok : SignedToken) (salt now : Nat) :
    (∀ u, findOneByEmail users email = some u →
      register users email password tok salt now = .error (.conflict "Email already exists")) ∧
    (findOneByEmail users email = none → exOk (verifyToken jwtSecret tok now) = false →
      register users email password tok salt now =
        .error (.badRequest "Invalid or expired OTP token")) := by
  constructor
  · intro u h
    simp [register, h]
  · intro h hv
    cases hvt : verifyToken jwtSecret tok now with
    | error e => simp [register, h, hvt]
    | ok c =>
        rw [hvt] at hv
        simp [exOk] at hv

/-- C5 witness: both branches at concrete inputs. -/
theorem C5_conflict_before_proof_check_witness :
    register [{ id := 2, email := "w@x.com", password := bcryptHash 3 "pw" }] "w@x.com"
        "secret1" (issueToken jwtSecret { email := some "w@x.com" } 0 0) 1 50 =
      .error (.conflict "Email already exists") ∧
    register [] "w@x.com" "secret1" (issueToken jwtSecret { email := some "w@x.com" } 0 0) 1 50 =
      .error (.badRequest "Invalid or expired OTP token") :=
  ⟨(C5_conflict_before_proof_check
        [{ id := 2, email := "w@x.com", password := bcryptHash 3 "pw" }] "w@x.com" "secret1"
        (issueToken jwtSecret { email := some "w@x.com" } 0 0) 1 50).1
      { id := 2, email := "w@x.com", password := bcryptHash 3 "pw" } rfl,
   (C5_conflict_before_proof_check [] "w@x.com" "secret1"
        (issueToken jwtSecret { email := some "w@x.com" } 0 0) 1 50).2 rfl (by decide)⟩

/-- C1 counterexample: a successful `register` returns the identity WITH
its `password` field — the bcrypt hash is present in the value handed to
the caller, refuting the claim that it is absent. -/
theorem C1_counterexample :
    ((register [] "a@x.com" "secret1" (issueToken jwtSecret { email := some "a@x.com" } 3600 0)
        5 0).toOption.map fun p => p.1.user.lookup "password") =
      some (some (.d (bcryptHash 5 "secret1"))) := rfl

/-- C1 (amended): every successful `register` returns the new identity
including its `password` field (the bcrypt hash of the submitted
password), together with the session token; only `login` strips the hash
before returning the user. -/
theorem C1_register_returns_password_hash (users : List User) (email password : String)
    (tok : SignedToken) (salt now : Nat) (r : AuthResult) (users2 : List User)
    (h : register users email password tok salt now = .ok (r, users2)) :
    r.user.lookup "password" = some (.d (bcryptHash salt password)) ∧
    r.access_token =
      issueToken jwtSecret { username := some email, sub := some (toString users.length) }
        sessionTtl now := by
  unfold register at h
  cases hf : findOneByEmail users email with
  | some u =>
      rw [hf] at h
      simp at h
  | none =>
      rw [hf] at h
      cases hvt : verifyToken jwtSecret tok now with
      | error e =>
          rw [hvt] at h
          simp at h
      | ok c =>
          rw [hvt] at h
          simp [createUser] at h
          obtain ⟨h1, _⟩ := h
          subst h1
          exact ⟨rfl, rfl⟩

/-- C1 witness: the amended theorem at a concrete successful registration. -/
theorem C1_register_returns_password_hash_witness :
    ((register [] "w@x.com" "hunter2" (issueToken jwtSecret { email := some "w@x.com" } 3600 7)
        9 7).toOption.map fun p => p.1.user.lookup "password") =
      some (some (.d (bcryptHash 9 "hunter2"))) := by
  obtain ⟨r, users2, h⟩ :
      ∃ r users2,
        register [] "w@x.com" "hunter2" (issueToken jwtSecret { email := some "w@x.com" } 3600 7)
          9 7 = .ok (r, users2) := ⟨_, _, rfl⟩
  rw [h]
  show some (r.user.lookup "password") = some (some (.d (bcryptHash 9 "hunter2")))
  rw [(C1_register_returns_password_hash [] "w@x.com" "hunter2"
    (issueToken jwtSecret { email := some "w@x.com" } 3600 7) 9 7 r users2 h).1]
